import Mathlib

/-!
Verification of the Credential & Session Security Engine
(backend/app: core/security.py, services/auth_service.py,
services/two_factor_service.py, middleware/rate_limiter.py,
models/user.py, models/auth.py).

Shallow embedding: timestamps are `Int` seconds (datetime.utcnow().timestamp()),
JWTs are structured records carrying a signature-validity flag (the HMAC
primitive of python-jose is trusted), bcrypt hashing (passlib) is modelled by
an injective encoding, and database sessions become explicit state passing on
a `DB` record whose effect per code path matches the SQL statements that are
committed (statements undone by `session.rollback()` leave the state unchanged).
-/

/-! ## Signed token codec — app/core/security.py -/

/-- The claim-set dictionary placed inside a JWT (`to_encode` in
`create_access_token` / `create_refresh_token`); absent keys are `none`,
while `roles`/`permissions` are read with default `[]` so they are plain lists. -/
structure Payload where
  sub : Option String
  email : Option String
  roles : List String
  permissions : List String
  tokenType : Option String
  exp : Option Int
  iat : Option Int
  jti : Option String
deriving Repr, DecidableEq

/-- An encoded JWT: its payload plus whether its signature verifies under the
server secret (`jwt.decode` raises `JWTError` exactly when it does not). -/
structure Token where
  payload : Payload
  sigOk : Bool
deriving Repr, DecidableEq

/-- `TokenData` from app/core/security.py. -/
structure TokenData where
  sub : String
  email : String
  roles : List String
  permissions : List String
  tokenType : String
  exp : Int
  iat : Int
  jti : Option String
deriving Repr, DecidableEq

/-- `jwt.decode(token, SECRET_KEY, algorithms=[ALGORITHM])`: returns the
payload when the signature verifies, otherwise raises `JWTError`
(modelled as `none`). -/
def jwt_decode (t : Token) : Option Payload :=
  if t.sigOk then some t.payload else none

/-- `create_access_token` (security.py, lines 90-146) with the expiry delta
made explicit as `ttl` seconds (default `ACCESS_TOKEN_EXPIRE_MINUTES * 60`). -/
def create_access_token (user_id email : String) (roles permissions : List String)
    (now ttl : Int) : Token :=
  { payload :=
      { sub := some user_id
        email := some email
        roles := roles
        permissions := permissions
        tokenType := some "access"
        exp := some (now + ttl)
        iat := some now
        jti := none }
    sigOk := true }

/-- `create_refresh_token` (security.py, lines 149-193); the random
`token_id` from `generate_token_id()` is passed in explicitly. -/
def create_refresh_token (user_id token_id : String) (now ttl : Int) : Token :=
  { payload :=
      { sub := some user_id
        email := none
        roles := []
        permissions := []
        tokenType := some "refresh"
        exp := some (now + ttl)
        iat := some now
        jti := some token_id }
    sigOk := true }

/-- `verify_token` (security.py, lines 196-279).  Mirrors the Python checks in
order: decode (signature), the combined falsy test
`not sub or not token_type or exp is None or iat is None`, type mismatch,
expiry (`utcnow().timestamp() > exp`), then the per-kind required fields
(`email` for access, `jti` for refresh, both rejected when falsy). -/
def verify_token (token : Token) (expectedType : String) (now : Int) : Option TokenData :=
  match jwt_decode token with
  | none => none
  | some payload =>
    match payload.sub, payload.tokenType, payload.exp, payload.iat with
    | some sub, some tokenType, some exp, some iat =>
      if sub = "" then none
      else if tokenType = "" then none
      else if tokenType ≠ expectedType then none
      else if now > exp then none
      else if expectedType = "access" then
        let email := payload.email.getD ""
        if email = "" then none
        else some ⟨sub, email, payload.roles, payload.permissions, tokenType, exp, iat, none⟩
      else if expectedType = "refresh" then
        match payload.jti with
        | none => none
        | some jti =>
          if jti = "" then none
          else some ⟨sub, "", [], [], tokenType, exp, iat, some jti⟩
      else none
    | _, _, _, _ => none

/-! ## Credential verifier — bcrypt via passlib (trusted primitive) -/

/-- Model of `get_password_hash` (passlib bcrypt): an injective encoding of
the password; the salt does not matter for the verification relation. -/
def get_password_hash (password : String) : String :=
  "bcrypt$" ++ password

/-- Model of `verify_password`: true exactly when the hash is the hash of the
candidate password. -/
def verify_password (plain hashed : String) : Bool :=
  hashed = get_password_hash plain

/-! ## Data model — app/models/user.py, app/models/auth.py, app/models/session.py -/

/-- The columns of `User` (models/user.py) that the engine reads or writes.
`backup_codes` holds the decrypted list of hashed backup-code slots (`null`
slots are consumed ones); the Fernet layer is a bijection on storage and is
elided.  `permissions` models the result of `get_permissions()`. -/
structure UserRec where
  id : String
  email : String
  hashed_password : Option String
  is_active : Bool
  roles : List String
  permissions : List String
  failed_login_attempts : Nat
  locked_until : Option Int
  last_login : Option Int
  two_factor_enabled : Bool
  totp_secret : Option String
  backup_codes : Option (List (Option String))
  two_factor_recovery_codes_used : Nat
  failed_2fa_attempts : Nat
  two_factor_verified_at : Option Int
deriving Repr, DecidableEq

/-- `User.is_locked` (models/user.py, lines 154-159):
locked iff `locked_until` is set and `utcnow() < locked_until`. -/
def is_locked (u : UserRec) (now : Int) : Bool :=
  match u.locked_until with
  | none => false
  | some t => now < t

/-- A `RefreshToken` row (models/auth.py). -/
structure RefreshRec where
  token_id : String
  user_id : String
  expires_at : Int
  is_revoked : Bool
  used_at : Option Int
  revoked_at : Option Int
deriving Repr, DecidableEq

/-- `RefreshToken.is_expired`: `utcnow() > expires_at`. -/
def refresh_is_expired (r : RefreshRec) (now : Int) : Bool :=
  now > r.expires_at

/-- `RefreshToken.is_valid`: not expired and not revoked. -/
def refresh_is_valid (r : RefreshRec) (now : Int) : Bool :=
  !(refresh_is_expired r now) && !r.is_revoked

/-- A `UserSession` row (models/session.py), the fields logout touches. -/
structure SessionRec where
  user_id : String
  is_active : Bool
  ended_at : Option Int
deriving Repr, DecidableEq

/-- The persisted state the engine owns. -/
structure DB where
  users : List UserRec
  refresh_records : List RefreshRec
  sessions : List SessionRec
deriving Repr, DecidableEq

/-- `select(User).where(User.email == email)` with `scalar_one_or_none()`. -/
def findUserByEmail (db : DB) (email : String) : Option UserRec :=
  db.users.find? (fun u => u.email = email)

/-- `select(User).where(User.id == uid)` with `scalar_one_or_none()`. -/
def findUserById (db : DB) (uid : String) : Option UserRec :=
  db.users.find? (fun u => u.id = uid)

/-- `update(User).where(User.id == uid).values(...)`. -/
def updateUser (db : DB) (uid : String) (f : UserRec → UserRec) : DB :=
  { db with users := db.users.map (fun u => if u.id = uid then f u else u) }

/-! ## Lockout tracker — AuthService._handle_failed_login (auth_service.py, 364-424) -/

/-- `max_attempts = 5` in `_handle_failed_login`. -/
def max_attempts : Nat := 5

/-- `lockout_duration = timedelta(minutes=30)`, in seconds. -/
def lockout_duration : Int := 1800

/-- The UPDATE executed by `_handle_failed_login` when a `user` row is at
hand: increment `failed_login_attempts`; when the new count reaches
`max_attempts`, also set `locked_until = utcnow() + lockout_duration`. -/
def handle_failed_login (u : UserRec) (now : Int) : UserRec :=
  if max_attempts ≤ u.failed_login_attempts + 1 then
    { u with failed_login_attempts := u.failed_login_attempts + 1
             locked_until := some (now + lockout_duration) }
  else
    { u with failed_login_attempts := u.failed_login_attempts + 1 }

/-- The reset on successful login (auth_service.py, lines 251-257): when
`failed_login_attempts > 0`, set it to 0 and clear `locked_until`. -/
def reset_lockout (u : UserRec) : UserRec :=
  if 0 < u.failed_login_attempts then
    { u with failed_login_attempts := 0, locked_until := none }
  else u

/-! ## Session orchestrator — AuthService (auth_service.py) -/

/-- `ACCESS_TOKEN_EXPIRE_MINUTES = 15` (core/config.py). -/
def access_token_expire_minutes : Int := 15

/-- `REFRESH_TOKEN_EXPIRE_DAYS = 30` (core/config.py). -/
def refresh_token_expire_days : Int := 30

/-- `LoginResponse` (schemas/auth.py): `requires_2fa` defaults to `False` and
`temp_token` to `None`; `authenticate_user` constructs the response without
either, so they keep their defaults. -/
structure LoginResponse where
  access_token : Token
  refresh_token : Token
  token_type : String
  expires_in : Int
  requires_2fa : Bool
  temp_token : Option Token
deriving Repr, DecidableEq

/-- Outcome of `authenticate_user`: the `LoginResponse` on success, or the
raised exception (`AuthenticationError` with its message, or
`AccountLockedError`). -/
inductive LoginResult where
  | success (resp : LoginResponse)
  | invalidCredentials
  | accountLocked
  | notActive
deriving Repr, DecidableEq

/-- `AuthService.authenticate_user` (auth_service.py, lines 185-362) as a
state transformer on `DB`.  On every raising path the service executes
`session.rollback()`, which also discards the UPDATE that
`_handle_failed_login` had executed in the same transaction, so those paths
leave the persisted state unchanged.  On the success path the commit makes
durable: the lockout reset (when `failed_login_attempts > 0`), the
`last_login` update, and nothing else — the `RefreshToken` insert, the
`UserSession` insert and the audit log are commented out in the source. -/
def authenticate_user (db : DB) (email password : String) (now : Int)
    (tokenId : String) : LoginResult × DB :=
  match findUserByEmail db email with
  | none => (.invalidCredentials, db)
  | some user =>
    match user.hashed_password with
    | none => (.invalidCredentials, db)
    | some hp =>
      if is_locked user now then (.accountLocked, db)
      else if ¬ verify_password password hp then (.invalidCredentials, db)
      else if ¬ user.is_active then (.notActive, db)
      else
        let db1 := updateUser db user.id reset_lockout
        let db2 := updateUser db1 user.id (fun u => { u with last_login := some now })
        let role_names := user.roles
        let access := create_access_token user.id user.email role_names []
          now (access_token_expire_minutes * 60)
        let refresh := create_refresh_token user.id tokenId
          now (refresh_token_expire_days * 86400)
        (.success
          { access_token := access
            refresh_token := refresh
            token_type := "bearer"
            expires_in := access_token_expire_minutes * 60
            requires_2fa := false
            temp_token := none }, db2)

/-- Outcome of `refresh_access_token`: the new access token, or the raised
`AuthenticationError` with its message. -/
inductive RefreshResult where
  | ok (access_token : Token) (token_type : String) (expires_in : Int)
  | invalidToken
  | invalidOrExpired
  | userNotActive
deriving Repr, DecidableEq

/-- `select(RefreshToken).where(token_id == jti).where(is_revoked == False)`. -/
def findRefresh (db : DB) (jti : String) : Option RefreshRec :=
  db.refresh_records.find? (fun r => r.token_id = jti ∧ r.is_revoked = false)

/-- `AuthService.refresh_access_token` (auth_service.py, lines 451-545). -/
def refresh_access_token (db : DB) (tok : Token) (now : Int) : RefreshResult × DB :=
  match verify_token tok "refresh" now with
  | none => (.invalidToken, db)
  | some td =>
    match td.jti with
    | none => (.invalidToken, db)
    | some jti =>
      if jti = "" then (.invalidToken, db)
      else
        match findRefresh db jti with
        | none => (.invalidOrExpired, db)
        | some dbToken =>
          if ¬ refresh_is_valid dbToken now then (.invalidOrExpired, db)
          else
            match findUserById db dbToken.user_id with
            | none => (.userNotActive, db)
            | some user =>
              if ¬ user.is_active then (.userNotActive, db)
              else
                let recs := db.refresh_records.map
                  (fun r => if r.token_id = jti then { r with used_at := some now } else r)
                let db1 := { db with refresh_records := recs }
                let access := create_access_token user.id user.email user.roles
                  user.permissions now (access_token_expire_minutes * 60)
                (.ok access "bearer" (access_token_expire_minutes * 60), db1)

/-- `AuthService.logout_user` (auth_service.py, lines 678-746): verify the
access token; when invalid, return `False` with no statement executed; when
valid, revoke every unrevoked refresh record of the subject and end every
active session of the subject, then return `True`. -/
def logout_user (db : DB) (tok : Token) (now : Int) : Bool × DB :=
  match verify_token tok "access" now with
  | none => (false, db)
  | some td =>
    let recs := db.refresh_records.map
      (fun r => if r.user_id = td.sub && !r.is_revoked then
          { r with is_revoked := true, revoked_at := some now }
        else r)
    let sess := db.sessions.map
      (fun s => if s.user_id = td.sub && s.is_active then
          { s with is_active := false, ended_at := some now }
        else s)
    let db2 := { db with refresh_records := recs, sessions := sess }
    (true, db2)

/-! ## Two-factor engine — TwoFactorService (two_factor_service.py) -/

/-- `TwoFactorService.MAX_2FA_ATTEMPTS = 5`. -/
def MAX_2FA_ATTEMPTS : Nat := 5

/-- `TwoFactorService.LOCKOUT_DURATION = 300` seconds. -/
def LOCKOUT_DURATION : Int := 300

/-- Model of the pyotp TOTP primitive: the code a secret produces at a given
30-second time step, as an injective encoding (trusted external primitive). -/
def totp_code (secret : String) (step : Int) : String :=
  secret ++ "#" ++ toString step

/-- `TwoFactorService.verify_totp` with its default `window = 1`
(`totp.verify(code, valid_window=1)`): the code of the current step or of the
step one before or after is accepted. -/
def verify_totp (secret code : String) (now : Int) : Bool :=
  code = totp_code secret (now / 30 - 1)
    || code = totp_code secret (now / 30)
    || code = totp_code secret (now / 30 + 1)

/-- The scan of `_verify_backup_code` (two_factor_service.py, lines 294-321):
walk the hashed slots in order; at the first non-null, non-empty slot whose
hash verifies against `code` (`if hashed_code and verify_password(...)`),
null that slot and stop; `none` when no slot matches. -/
def consume_code : List (Option String) → String → Option (List (Option String))
  | [], _ => none
  | slot :: rest, code =>
    match slot with
    | some h =>
      if h ≠ "" ∧ verify_password code h then some (none :: rest)
      else
        match consume_code rest code with
        | some rest' => some (slot :: rest')
        | none => none
    | none =>
      match consume_code rest code with
      | some rest' => some (none :: rest')
      | none => none

/-- `TwoFactorService._verify_backup_code` (lines 280-329): `False` when no
backup codes are stored; otherwise scan, and on a match null the slot,
increment `two_factor_recovery_codes_used` and commit in the same operation. -/
def verify_backup_code (u : UserRec) (code : String) : Bool × UserRec :=
  match u.backup_codes with
  | none => (false, u)
  | some slots =>
    match consume_code slots code with
    | some slots' =>
      (true, { u with backup_codes := some slots'
                      two_factor_recovery_codes_used :=
                        u.two_factor_recovery_codes_used + 1 })
    | none => (false, u)

/-- Outcome of `verify_2fa_code`: the returned boolean with the updated user
row, or the raised `TwoFactorError` (not enabled / locked out), or the
unhandled `TypeError` from `None + timedelta` when `two_factor_verified_at`
is unset while the attempt counter is saturated. -/
inductive TwoFAOutcome where
  | ok (verified : Bool) (u : UserRec)
  | notEnabled
  | lockedOut (lockedUntil : Int)
  | typeError
deriving Repr, DecidableEq

/-- The body of `verify_2fa_code` past the lockout gate: verify the backup
code or the TOTP code (`False` when no TOTP secret is stored), then reset the
attempt counter on success or increment it on failure, and commit. -/
def verify_2fa_core (u : UserRec) (code : String) (isBackup : Bool)
    (now : Int) : TwoFAOutcome :=
  let checked :=
    if isBackup then verify_backup_code u code
    else
      match u.totp_secret with
      | some s => (verify_totp s code now, u)
      | none => (false, u)
  if checked.1 then
    .ok true { checked.2 with failed_2fa_attempts := 0 }
  else
    .ok false { checked.2 with failed_2fa_attempts := checked.2.failed_2fa_attempts + 1 }

/-- `TwoFactorService.verify_2fa_code` (lines 212-278).  The lockout gate
computes `lockout_time = user.two_factor_verified_at + LOCKOUT_DURATION` —
anchored at the time 2FA was enabled, not at any failed attempt — and only
rejects while `utcnow() < lockout_time`; past it the attempt counter is reset
to 0 and verification proceeds. -/
def verify_2fa_code (u : UserRec) (code : String) (isBackup : Bool)
    (now : Int) : TwoFAOutcome :=
  if ¬ u.two_factor_enabled then .notEnabled
  else if MAX_2FA_ATTEMPTS ≤ u.failed_2fa_attempts then
    match u.two_factor_verified_at with
    | none => .typeError
    | some verifiedAt =>
      if now < verifiedAt + LOCKOUT_DURATION then
        .lockedOut (verifiedAt + LOCKOUT_DURATION)
      else
        verify_2fa_core { u with failed_2fa_attempts := 0 } code isBackup now
  else
    verify_2fa_core u code isBackup now

/-! ## Sliding-window rate limiter — RateLimiter (middleware/rate_limiter.py) -/

/-- `zremrangebyscore key 0 windowStart`: drop every member whose score lies
in `[0, windowStart]` (Redis range bounds are inclusive). -/
def zremrangebyscore (bucket : List Int) (lo hi : Int) : List Int :=
  bucket.filter (fun t => ¬ (lo ≤ t ∧ t ≤ hi))

/-- `zcard key`: the number of members. -/
def zcard (bucket : List Int) : Nat :=
  bucket.length

/-- `zadd key (str(now): now)`: the member keyed `str(now)` gets score `now`;
since members are exactly the rendered scores, adding an already-present
timestamp is a no-op. -/
def zadd (bucket : List Int) (t : Int) : List Int :=
  if bucket.contains t then bucket else bucket ++ [t]

/-- `zrange key 0 0 withscores=True`: the smallest score, when any. -/
def zrangeMin (bucket : List Int) : Option Int :=
  bucket.foldr (fun t acc => match acc with
    | none => some t
    | some m => some (min t m)) none

/-- The limiter's own mutable state: `self.enabled`. -/
structure RLState where
  enabled : Bool
deriving Repr, DecidableEq

/-- The counter store as seen by one check: unreachable (every call raises a
connection error) or reachable with the bucket stored under the key. -/
inductive Store where
  | down
  | up (bucket : List Int)
deriving Repr, DecidableEq

/-- The `(allowed, remaining, reset_time)` triple returned by
`check_rate_limit`. -/
structure RLOutcome where
  allowed : Bool
  remaining : Int
  reset : Int
deriving Repr, DecidableEq

/-- `RateLimiter.check_rate_limit` (rate_limiter.py, lines 77-164).
Disabled limiter: `(True, limit, 0)`.  Store unreachable: log a warning, set
`self.enabled = False`, return `(True, limit, 0)` (fail open).  Otherwise run
the pipeline: trim scores in `[0, now - window]`, count what remains, add
`now` (unconditionally — the `zadd` sits in the pipeline before the limit
test), then reject with the oldest remaining score + window when
`count >= limit`, else admit with `remaining = limit - count - 1` and
`reset = now + window`. -/
def check_rate_limit (st : RLState) (store : Store) (limit window now : Int) :
    RLOutcome × RLState × Store :=
  if ¬ st.enabled then (⟨true, limit, 0⟩, st, store)
  else
    match store with
    | .down => (⟨true, limit, 0⟩, { st with enabled := false }, .down)
    | .up bucket =>
      let windowStart := now - window
      let trimmed := zremrangebyscore bucket 0 windowStart
      let requestCount : Int := (zcard trimmed : Int)
      let added := zadd trimmed now
      if limit ≤ requestCount then
        let reset :=
          match zrangeMin added with
          | some oldest => oldest + window
          | none => now + window
        (⟨false, 0, reset⟩, st, .up added)
      else
        (⟨true, limit - requestCount - 1, now + window⟩, st, .up added)

/-! ## Theorems -/


/-- A stored slot holds (the hash of) `code`. -/
def backup_slot_matches (code : String) (s : Option String) : Bool :=
  decide (s = some (get_password_hash code))

/-- The amended §4.4 algorithm stated on its own: drop every entry with
score in `[0, now - window]`, count the survivors, insert `now`
unconditionally (members are rendered scores, so inserting a present
timestamp is a no-op), and only then decide: when `count < limit`, admit
with `remaining = limit - count - 1` and `reset = now + window`; otherwise
reject with `remaining = 0` and `reset` = oldest entry of the
post-insertion bucket + `window`. -/
def spec_sliding_window_check (bucket : List Int) (limit window now : Int) :
    RLOutcome × List Int :=
  let survivors := bucket.filter (fun ts => ¬ (0 ≤ ts ∧ ts ≤ now - window))
  let count : Int := (survivors.length : Int)
  let inserted := if survivors.contains now then survivors else survivors ++ [now]
  if count < limit then
    (⟨true, limit - count - 1, now + window⟩, inserted)
  else
    (⟨false, 0, (zrangeMin inserted).getD now + window⟩, inserted)

/-! ## Concrete fixtures -/

/-- A user row with two-factor authentication enabled (2FA enabled and
confirmed at time 0) and the password `Secret1!`. -/
def user2fa : UserRec :=
  { id := "u1"
    email := "dana@example.com"
    hashed_password := some (get_password_hash "Secret1!")
    is_active := true
    roles := ["user"]
    permissions := []
    failed_login_attempts := 0
    locked_until := none
    last_login := none
    two_factor_enabled := true
    totp_secret := some "JBSWY3DP"
    backup_codes := none
    two_factor_recovery_codes_used := 0
    failed_2fa_attempts := 0
    two_factor_verified_at := some 0 }

/-- A database holding only the 2FA-enabled user. -/
def db2fa : DB := ⟨[user2fa], [], []⟩

/-- An ordinary active user without 2FA, password `Sunny4$day`. -/
def userA : UserRec :=
  { id := "u2"
    email := "alex@example.com"
    hashed_password := some (get_password_hash "Sunny4$day")
    is_active := true
    roles := ["user"]
    permissions := []
    failed_login_attempts := 0
    locked_until := none
    last_login := none
    two_factor_enabled := false
    totp_secret := none
    backup_codes := none
    two_factor_recovery_codes_used := 0
    failed_2fa_attempts := 0
    two_factor_verified_at := none }

/-- A database holding only `userA`, with no refresh records or sessions. -/
def dbA : DB := ⟨[userA], [], []⟩

/-- `user2fa` after five consecutive failed 2FA verification attempts. -/
def user2faLocked : UserRec := { user2fa with failed_2fa_attempts := 5 }

/-- `userA` after five consecutive recorded login failures at time 0. -/
def lockedOutUser : UserRec :=
  handle_failed_login (handle_failed_login (handle_failed_login
    (handle_failed_login (handle_failed_login userA 0) 0) 0) 0) 0

/-- A database with one live refresh record and one active session. -/
def dbLogout : DB :=
  ⟨[], [⟨"rt1", "u1", 99999, false, none, none⟩], [⟨"u1", true, none⟩]⟩

/-- `userA` with two unused hashed backup-code slots. -/
def userBC : UserRec :=
  { userA with backup_codes := some [some (get_password_hash "AAAA-1111"),
                                     some (get_password_hash "BBBB-2222")] }

/-! ## Helper lemmas -/

/-- Any successful `verify_token` forces: a valid signature; a present token
type equal to the expected one; a present `exp` not in the past; a present,
non-empty `sub`; a present `iat`; and the kind-specific required field — a
non-empty `email` for access, a non-empty `jti` for refresh. -/
theorem verify_token_some_facts (tok : Token) (expected : String) (now : Int)
    (td : TokenData) (h : verify_token tok expected now = some td) :
    tok.sigOk = true ∧ tok.payload.tokenType = some expected ∧
      (∃ e, tok.payload.exp = some e ∧ now ≤ e) ∧
      (∃ s, tok.payload.sub = some s ∧ s ≠ "") ∧
      (∃ i, tok.payload.iat = some i) ∧
      (expected = "access" → ∃ em, tok.payload.email = some em ∧ em ≠ "") ∧
      (expected = "refresh" → ∃ j, tok.payload.jti = some j ∧ j ≠ "") := by
  obtain ⟨⟨sub, email, roles, perms, tt, exp, iat, jti⟩, sig⟩ := tok
  simp only [verify_token, jwt_decode] at h
  cases sig
  · simp at h
  · cases sub <;> cases tt <;> cases exp <;> cases iat <;> simp at h ⊢
    case some.some.some.some s t e i =>
      obtain ⟨hs, ht, hte, hnow, hrest⟩ := h
      refine ⟨hte, hnow, hs, ?_, ?_⟩
      · intro hacc
        rw [hacc] at hrest
        simp at hrest
        cases email with
        | none => simp at hrest
        | some em =>
          simp at hrest
          exact ⟨em, rfl, hrest.1⟩
      · intro href
        rw [href] at hrest
        simp at hrest
        cases jti with
        | none => simp at hrest
        | some j =>
          simp at hrest
          exact ⟨j, rfl, hrest.1⟩

/-- Unfolding equation for `zrangeMin` on a cons cell. -/
theorem zrangeMin_cons (a : Int) (t : List Int) :
    zrangeMin (a :: t) = match zrangeMin t with
      | none => some a
      | some mt => some (min a mt) := rfl

/-- The value `zrangeMin` returns is a member of the bucket and a lower bound
for it — it is the oldest (smallest) score, as `zrange key 0 0` promises. -/
theorem zrangeMin_is_min (l : List Int) (m : Int) (h : zrangeMin l = some m) :
    m ∈ l ∧ ∀ x ∈ l, m ≤ x := by
  induction l generalizing m with
  | nil => simp [zrangeMin] at h
  | cons a t ih =>
    rw [zrangeMin_cons] at h
    cases ht : zrangeMin t with
    | none =>
      rw [ht] at h
      have hm : m = a := by simpa using h.symm
      subst hm
      have ht' : t = [] := by
        cases t with
        | nil => rfl
        | cons b t2 =>
          rw [zrangeMin_cons] at ht
          cases h2 : zrangeMin t2 <;> rw [h2] at ht <;> simp at ht
      subst ht'
      simp
    | some mt =>
      rw [ht] at h
      have hm : m = min a mt := by simpa using h.symm
      obtain ⟨hmem, hle⟩ := ih mt ht
      subst hm
      refine ⟨?_, ?_⟩
      · rcases le_total a mt with hc | hc
        · rw [min_eq_left hc]
          exact List.mem_cons_self a t
        · rw [min_eq_right hc]
          exact List.mem_cons_of_mem a hmem
      · intro x hx
        rcases List.mem_cons.mp hx with rfl | hx'
        · exact min_le_left _ _
        · exact le_trans (min_le_right a mt) (hle x hx')

/-- A bcrypt hash is never the empty string. -/
theorem get_password_hash_ne_empty (p : String) : get_password_hash p ≠ "" := by
  intro h
  have hl := congrArg String.length h
  rw [get_password_hash, String.length_append] at hl
  have h7 : ("bcrypt$" : String).length = 7 := rfl
  have h0 : ("" : String).length = 0 := rfl
  omega

/-- The slot-match test of `_verify_backup_code` holds exactly for the hash of
the presented code. -/
theorem consume_cond (code h : String) :
    (h ≠ "" ∧ verify_password code h) ↔ h = get_password_hash code := by
  constructor
  · rintro ⟨-, hv⟩
    simpa [verify_password] using hv
  · rintro rfl
    exact ⟨get_password_hash_ne_empty code, by simp [verify_password]⟩

/-- Consuming a backup code removes exactly one matching slot. -/
theorem consume_code_countP (slots : List (Option String)) (code : String)
    (slots' : List (Option String)) (h : consume_code slots code = some slots') :
    slots'.countP (backup_slot_matches code) + 1
      = slots.countP (backup_slot_matches code) := by
  induction slots generalizing slots' with
  | nil => simp [consume_code] at h
  | cons s rest ih =>
    cases s with
    | none =>
      simp only [consume_code] at h
      cases hc : consume_code rest code with
      | none => rw [hc] at h; simp at h
      | some rest' =>
        rw [hc] at h
        simp at h
        subst h
        have := ih rest' hc
        simp only [List.countP_cons, backup_slot_matches] at this ⊢
        simp at this ⊢
        omega
    | some hstr =>
      simp only [consume_code] at h
      by_cases hcond : hstr ≠ "" ∧ verify_password code hstr
      · rw [if_pos hcond] at h
        simp at h
        subst h
        have heq : hstr = get_password_hash code := (consume_cond code hstr).mp hcond
        rw [List.countP_cons, List.countP_cons]
        simp [backup_slot_matches, heq]
      · rw [if_neg hcond] at h
        cases hc : consume_code rest code with
        | none => rw [hc] at h; simp at h
        | some rest' =>
          rw [hc] at h
          simp at h
          subst h
          have hne : hstr ≠ get_password_hash code := fun he =>
            hcond ((consume_cond code hstr).mpr he)
          rw [List.countP_cons, List.countP_cons]
          have := ih rest' hc
          simp [backup_slot_matches, hne]
          omega

/-- When no slot matches the code, the scan fails. -/
theorem consume_code_eq_none (slots : List (Option String)) (code : String)
    (h : slots.countP (backup_slot_matches code) = 0) :
    consume_code slots code = none := by
  induction slots with
  | nil => rfl
  | cons s rest ih =>
    cases hps : backup_slot_matches code s with
    | true =>
      rw [List.countP_cons, hps, if_pos rfl] at h
      exact absurd h (by omega)
    | false =>
      rw [List.countP_cons, hps, if_neg (by simp), Nat.add_zero] at h
      cases s with
      | none =>
        simp only [consume_code]
        rw [ih h]
      | some hstr =>
        have hne : hstr ≠ get_password_hash code := by
          intro he
          simp [backup_slot_matches, he] at hps
        simp only [consume_code]
        rw [if_neg (fun hc => hne ((consume_cond code hstr).mp hc)), ih h]

/-- Consuming a backup code preserves the number of slots. -/
theorem consume_code_length (slots : List (Option String)) (code : String)
    (slots' : List (Option String)) (h : consume_code slots code = some slots') :
    slots'.length = slots.length := by
  induction slots generalizing slots' with
  | nil => simp [consume_code] at h
  | cons s rest ih =>
    cases s with
    | none =>
      simp only [consume_code] at h
      cases hc : consume_code rest code with
      | none => rw [hc] at h; simp at h
      | some rest' =>
        rw [hc] at h
        simp at h
        subst h
        simp [ih rest' hc]
    | some hstr =>
      simp only [consume_code] at h
      by_cases hcond : hstr ≠ "" ∧ verify_password code hstr
      · rw [if_pos hcond] at h
        simp at h
        subst h
        simp
      · rw [if_neg hcond] at h
        cases hc : consume_code rest code with
        | none => rw [hc] at h; simp at h
        | some rest' =>
          rw [hc] at h
          simp at h
          subst h
          simp [ih rest' hc]

/-! ## Claim theorems -/

/-- C1 (code bug): on a successful password login for an account with
`two_factor_enabled = true`, `authenticate_user` returns no transitional
2FA-pending state — it issues full access and refresh tokens, both of which
verify, with `requires_2fa = false` and `temp_token = none`; the function
never reads `two_factor_enabled`. -/
theorem login_ignores_two_factor :
    user2fa.two_factor_enabled = true ∧
    (authenticate_user db2fa "dana@example.com" "Secret1!" 1000 "jti-1").1
      = .success
          { access_token := create_access_token "u1" "dana@example.com" ["user"] [] 1000 900
            refresh_token := create_refresh_token "u1" "jti-1" 1000 2592000
            token_type := "bearer"
            expires_in := 900
            requires_2fa := false
            temp_token := none } ∧
    (verify_token (create_access_token "u1" "dana@example.com" ["user"] [] 1000 900)
      "access" 1000).isSome = true ∧
    (verify_token (create_refresh_token "u1" "jti-1" 1000 2592000)
      "refresh" 1000).isSome = true := by
  refine ⟨rfl, by decide, by decide, by decide⟩

/-- C2 (code bug): a successful login leaves `refresh_records` empty — the
`RefreshToken` insert in `authenticate_user` is commented out — so the
refresh token it issued, presented before expiry with no revocation,
is rejected by `refresh_access_token` with the invalid-or-expired error
and no state change. -/
theorem login_refresh_record_not_persisted :
    (authenticate_user dbA "alex@example.com" "Sunny4$day" 1000 "jti-2").1
      = .success
          { access_token := create_access_token "u2" "alex@example.com" ["user"] [] 1000 900
            refresh_token := create_refresh_token "u2" "jti-2" 1000 2592000
            token_type := "bearer"
            expires_in := 900
            requires_2fa := false
            temp_token := none } ∧
    (authenticate_user dbA "alex@example.com" "Sunny4$day" 1000 "jti-2").2.refresh_records
      = [] ∧
    refresh_access_token
      (authenticate_user dbA "alex@example.com" "Sunny4$day" 1000 "jti-2").2
      (create_refresh_token "u2" "jti-2" 1000 2592000) 2000
      = (.invalidOrExpired,
         (authenticate_user dbA "alex@example.com" "Sunny4$day" 1000 "jti-2").2) := by
  refine ⟨by decide, by decide, by decide⟩

/-- C3 (code bug): the 2FA lockout window of `verify_2fa_code` is anchored at
`two_factor_verified_at` (the time 2FA was enabled), not at the attempt that
reached `MAX_2FA_ATTEMPTS` failures.  A wrong attempt increments the counter;
with the counter saturated at 5 the gate rejects only while
`now < two_factor_verified_at + 300` (here: until time 300), and at time 601
— one second after the fifth failure at 600 — verification is not rejected:
the counter resets and the wrong code is simply evaluated. -/
theorem twofa_lockout_anchored_at_enable_time :
    (verify_2fa_code user2fa "000000" false 596
      = .ok false { user2fa with failed_2fa_attempts := 1 }) ∧
    user2faLocked.failed_2fa_attempts = MAX_2FA_ATTEMPTS ∧
    user2faLocked.two_factor_verified_at = some 0 ∧
    verify_2fa_code user2faLocked "000000" false 250 = .lockedOut 300 ∧
    verify_2fa_code user2faLocked "000000" false 601
      = .ok false { user2faLocked with failed_2fa_attempts := 1 } := by
  refine ⟨by decide, by decide, by decide, by decide, by decide⟩

/-- C4 counterexample: after exactly five recorded failures at time 0 the
account is locked until 1800, but once the lockout elapses the counter still
holds 5 rather than 0, and a single further recorded failure — not another
full five — immediately re-locks the account. -/
theorem lockout_counter_survives_expiry :
    lockedOutUser.failed_login_attempts = max_attempts ∧
    lockedOutUser.locked_until = some lockout_duration ∧
    is_locked lockedOutUser 1799 = true ∧
    is_locked lockedOutUser 1800 = false ∧
    lockedOutUser.failed_login_attempts ≠ 0 ∧
    is_locked (handle_failed_login lockedOutUser 1800) 1801 = true := by
  refine ⟨by decide, by decide, by decide, by decide, by decide, by decide⟩

/-- C4 (amended): each recorded failure increments the counter; when the new
count reaches `max_attempts` the row is locked until `now + lockout_duration`
and `is_locked` holds exactly while the clock is before `locked_until`; once
the lockout elapses `is_locked` is false but the counter keeps its value, so
one further failure re-locks at once; only `record_success` (the reset on
successful login) returns the counter to 0 and clears the lock. -/
theorem lockout_state_machine (u : UserRec) (now s : Int) :
    ((handle_failed_login u now).failed_login_attempts = u.failed_login_attempts + 1)
  ∧ (max_attempts ≤ u.failed_login_attempts + 1 →
      (handle_failed_login u now).locked_until = some (now + lockout_duration))
  ∧ (u.failed_login_attempts + 1 < max_attempts →
      (handle_failed_login u now).locked_until = u.locked_until)
  ∧ (u.locked_until = some s → (is_locked u now = true ↔ now < s))
  ∧ (u.locked_until = none → is_locked u now = false)
  ∧ (max_attempts ≤ u.failed_login_attempts →
      is_locked (handle_failed_login u now) now = true)
  ∧ ((reset_lockout u).failed_login_attempts = 0)
  ∧ (0 < u.failed_login_attempts → is_locked (reset_lockout u) now = false) := by
  refine ⟨?_, ?_, ?_, ?_, ?_, ?_, ?_, ?_⟩
  · unfold handle_failed_login
    split <;> rfl
  · intro h
    unfold handle_failed_login
    rw [if_pos h]
  · intro h
    unfold handle_failed_login
    rw [if_neg (by omega)]
  · intro h
    unfold is_locked
    rw [h]
    simp
  · intro h
    unfold is_locked
    rw [h]
  · intro h
    unfold handle_failed_login is_locked
    rw [if_pos (by unfold max_attempts at h ⊢; omega)]
    simp [lockout_duration]
  · unfold reset_lockout
    split
    · rfl
    · omega
  · intro h
    unfold reset_lockout is_locked
    rw [if_pos h]

/-- C4 witness: the amended theorem applied to the locked-out fixture. -/
theorem lockout_state_machine_witness :
    is_locked (handle_failed_login lockedOutUser 1800) 1800 = true :=
  (lockout_state_machine lockedOutUser 1800 0).2.2.2.2.2.1 (by decide)

/-- C5 counterexample: with `limit = 1`, `window = 60`, bucket `[10]` and
`now = 20`, the check rejects yet still inserts `now` into the bucket
(claim: nothing is inserted on rejection); and with bucket `[0]`,
`now = 60`, the entry exactly `window` old is dropped (claim: only entries
strictly older than `now - window` are dropped) so the call is admitted
where the claimed algorithm would reject. -/
theorem rate_limit_reject_inserts_now :
    check_rate_limit ⟨true⟩ (.up [10]) 1 60 20
      = (⟨false, 0, 70⟩, ⟨true⟩, .up [10, 20]) ∧
    (check_rate_limit ⟨true⟩ (.up [10]) 1 60 20).2.2 ≠ .up [10] ∧
    (check_rate_limit ⟨true⟩ (.up [0]) 1 60 60).1.allowed = true := by
  refine ⟨by decide, by decide, by decide⟩

/-- C5 (amended): an enabled limiter with a reachable store performs exactly
the amended algorithm `spec_sliding_window_check`: drop scores in
`[0, now - window]`, count survivors, insert `now` unconditionally, then
reject with `remaining = 0` and `reset` = oldest post-insertion entry +
`window` when `count >= limit`, else admit with
`remaining = limit - count - 1` and `reset = now + window`. -/
theorem check_rate_limit_matches_amended_algorithm
    (bucket : List Int) (limit window now : Int) :
    check_rate_limit ⟨true⟩ (.up bucket) limit window now
      = ((spec_sliding_window_check bucket limit window now).1, ⟨true⟩,
         .up (spec_sliding_window_check bucket limit window now).2) := by
  simp only [check_rate_limit, spec_sliding_window_check, zremrangebyscore, zcard, zadd]
  by_cases h : ((bucket.filter (fun t => decide ¬(0 ≤ t ∧ t ≤ now - window))).length : Int) < limit
  · rw [if_neg (by simp), if_neg (not_le.mpr h), if_pos h]
  · rw [if_neg (by simp), if_pos (not_lt.mp h), if_neg h]
    generalize zrangeMin (if (bucket.filter (fun t => decide ¬(0 ≤ t ∧ t ≤ now - window))).contains now = true then bucket.filter (fun t => decide ¬(0 ≤ t ∧ t ≤ now - window)) else bucket.filter (fun t => decide ¬(0 ≤ t ∧ t ≤ now - window)) ++ [now]) = z
    cases z <;> rfl

/-- C6: when a backup code verifies against an account whose slots contain at
most one match for it, the same operation nulls that slot (no slot matching
the code remains, the slot count is unchanged) and increments
`two_factor_recovery_codes_used`, and a second verification of the same code
for the same account returns `false`. -/
theorem backup_code_single_use (u : UserRec) (slots : List (Option String)) (code : String)
    (hbc : u.backup_codes = some slots)
    (huniq : slots.countP (backup_slot_matches code) ≤ 1)
    (hok : (verify_backup_code u code).1 = true) :
    ((verify_backup_code u code).2.two_factor_recovery_codes_used
        = u.two_factor_recovery_codes_used + 1)
  ∧ (∃ slots', (verify_backup_code u code).2.backup_codes = some slots'
      ∧ slots'.length = slots.length
      ∧ slots'.countP (backup_slot_matches code) = 0)
  ∧ (verify_backup_code (verify_backup_code u code).2 code).1 = false := by
  cases hc : consume_code slots code with
  | none =>
    simp only [verify_backup_code, hbc, hc] at hok
    simp at hok
  | some slots' =>
    have hvb : verify_backup_code u code
        = (true, { u with backup_codes := some slots'
                          two_factor_recovery_codes_used :=
                            u.two_factor_recovery_codes_used + 1 }) := by
      simp only [verify_backup_code, hbc, hc]
    rw [hvb]
    have hcount := consume_code_countP slots code slots' hc
    have hzero : slots'.countP (backup_slot_matches code) = 0 := by omega
    refine ⟨rfl, ⟨slots', rfl, consume_code_length slots code slots' hc, hzero⟩, ?_⟩
    simp [verify_backup_code, consume_code_eq_none slots' code hzero]

/-- C6 witness: the theorem applied to a two-slot fixture. -/
theorem backup_code_single_use_witness :
    ((verify_backup_code userBC "AAAA-1111").2.two_factor_recovery_codes_used
        = userBC.two_factor_recovery_codes_used + 1)
  ∧ (∃ slots', (verify_backup_code userBC "AAAA-1111").2.backup_codes = some slots'
      ∧ slots'.length = [some (get_password_hash "AAAA-1111"),
                         some (get_password_hash "BBBB-2222")].length
      ∧ slots'.countP (backup_slot_matches "AAAA-1111") = 0)
  ∧ (verify_backup_code (verify_backup_code userBC "AAAA-1111").2 "AAAA-1111").1 = false :=
  backup_code_single_use userBC
    [some (get_password_hash "AAAA-1111"), some (get_password_hash "BBBB-2222")]
    "AAAA-1111" rfl (by decide) (by decide)

/-- C7: `verify_token` returns `none` (it never raises on malformed input —
the embedding is total) whenever the signature is invalid, the `type` claim
is missing or differs from the expected kind (in particular an access token
checked as refresh and vice versa), a required field is missing — `sub`,
`exp` or `iat` for either kind, `email` for access, `jti` for refresh — or
the current time is past `exp`; hence a token issued with zero or negative
remaining ttl is rejected at any strictly later time. -/
theorem verify_token_rejects_invalid :
    (∀ (tok : Token) (expected : String) (now : Int),
        tok.sigOk = false → verify_token tok expected now = none)
  ∧ (∀ (tok : Token) (expected : String) (now : Int),
        tok.payload.tokenType = none → verify_token tok expected now = none)
  ∧ (∀ (tok : Token) (expected ty : String) (now : Int),
        tok.payload.tokenType = some ty → ty ≠ expected →
        verify_token tok expected now = none)
  ∧ (∀ (tok : Token) (expected : String) (now : Int),
        tok.payload.exp = none → verify_token tok expected now = none)
  ∧ (∀ (tok : Token) (expected : String) (now e : Int),
        tok.payload.exp = some e → e < now → verify_token tok expected now = none)
  ∧ (∀ (tok : Token) (expected : String) (now : Int),
        tok.payload.sub = none → verify_token tok expected now = none)
  ∧ (∀ (tok : Token) (expected : String) (now : Int),
        tok.payload.iat = none → verify_token tok expected now = none)
  ∧ (∀ (tok : Token) (now : Int),
        tok.payload.email = none → verify_token tok "access" now = none)
  ∧ (∀ (tok : Token) (now : Int),
        tok.payload.jti = none → verify_token tok "refresh" now = none)
  ∧ (∀ (uid em : String) (roles perms : List String) (now ttl t : Int),
        verify_token (create_access_token uid em roles perms now ttl) "refresh" t = none)
  ∧ (∀ (uid jti : String) (now ttl t : Int),
        verify_token (create_refresh_token uid jti now ttl) "access" t = none)
  ∧ (∀ (uid em : String) (roles perms : List String) (now ttl t : Int),
        ttl ≤ 0 → now < t →
        verify_token (create_access_token uid em roles perms now ttl) "access" t = none) := by
  have reject : ∀ (tok : Token) (expected : String) (now : Int),
      (tok.sigOk = true →
        tok.payload.tokenType = some expected →
        ∀ e, tok.payload.exp = some e → now ≤ e →
        ∀ s, tok.payload.sub = some s → s ≠ "" →
        ∀ i, tok.payload.iat = some i →
        (expected = "access" → ∃ em, tok.payload.email = some em ∧ em ≠ "") →
        (expected = "refresh" → ∃ j, tok.payload.jti = some j ∧ j ≠ "") → False) →
      verify_token tok expected now = none := by
    intro tok expected now hcon
    cases hv : verify_token tok expected now with
    | none => rfl
    | some td =>
      obtain ⟨h1, h2, ⟨e, he, hle⟩, ⟨s, hs, hsne⟩, ⟨i, hi⟩, hem, hjti⟩ :=
        verify_token_some_facts tok expected now td hv
      exact (hcon h1 h2 e he hle s hs hsne i hi hem hjti).elim
  refine ⟨?_, ?_, ?_, ?_, ?_, ?_, ?_, ?_, ?_, ?_, ?_, ?_⟩
  · intro tok expected now h
    exact reject tok expected now (fun h1 _ _ _ _ _ _ _ _ _ _ _ => by simp [h] at h1)
  · intro tok expected now h
    exact reject tok expected now (fun _ h2 _ _ _ _ _ _ _ _ _ _ => by simp [h] at h2)
  · intro tok expected ty now h hne
    exact reject tok expected now (fun _ h2 _ _ _ _ _ _ _ _ _ _ => by
      rw [h] at h2
      exact hne (Option.some_injective _ h2))
  · intro tok expected now h
    exact reject tok expected now (fun _ _ e he _ _ _ _ _ _ _ _ => by simp [h] at he)
  · intro tok expected now e h hlt
    exact reject tok expected now (fun _ _ e' he' hle _ _ _ _ _ _ _ => by
      rw [h] at he'
      have : e = e' := Option.some_injective _ he'
      omega)
  · intro tok expected now h
    exact reject tok expected now (fun _ _ _ _ _ s hs _ _ _ _ _ => by simp [h] at hs)
  · intro tok expected now h
    exact reject tok expected now (fun _ _ _ _ _ _ _ _ i hi _ _ => by simp [h] at hi)
  · intro tok now h
    exact reject tok "access" now (fun _ _ _ _ _ _ _ _ _ _ hem _ => by
      obtain ⟨em, hem', -⟩ := hem rfl
      simp [h] at hem')
  · intro tok now h
    exact reject tok "refresh" now (fun _ _ _ _ _ _ _ _ _ _ _ hjti => by
      obtain ⟨j, hj, -⟩ := hjti rfl
      simp [h] at hj)
  · intro uid em roles perms now ttl t
    exact reject _ "refresh" t (fun _ h2 _ _ _ _ _ _ _ _ _ _ => by
      simp [create_access_token] at h2)
  · intro uid jti now ttl t
    exact reject _ "access" t (fun _ h2 _ _ _ _ _ _ _ _ _ _ => by
      simp [create_refresh_token] at h2)
  · intro uid em roles perms now ttl t httl hlt
    exact reject _ "access" t (fun _ _ e he hle _ _ _ _ _ _ _ => by
      simp [create_access_token] at he
      omega)

/-- C7 witness: a token with an invalid signature is rejected. -/
theorem verify_token_rejects_invalid_witness :
    verify_token
      ⟨⟨some "u1", some "a@b.c", [], [], some "access", some 100, some 0, none⟩, false⟩
      "access" 50 = none :=
  verify_token_rejects_invalid.1
    ⟨⟨some "u1", some "a@b.c", [], [], some "access", some 100, some 0, none⟩, false⟩
    "access" 50 rfl

/-- C8: the rate limiter fails open: when the counter store raises a
connection error the check logs a warning (side channel, not modelled),
returns `allowed = true` and disables the limiter, so every subsequent check
is also allowed until it is re-created; a request is never rejected while
the store is unreachable. -/
theorem rate_limiter_fails_open (st : RLState) (store : Store) (limit window now : Int) :
    (st.enabled = true →
      check_rate_limit st .down limit window now = (⟨true, limit, 0⟩, ⟨false⟩, .down))
  ∧ (st.enabled = false →
      check_rate_limit st store limit window now = (⟨true, limit, 0⟩, st, store))
  ∧ ((check_rate_limit st store limit window now).1.allowed = false →
      st.enabled = true ∧ ∃ b, store = .up b) := by
  obtain ⟨e⟩ := st
  cases e
  · refine ⟨fun h => by simp at h, fun _ => by simp [check_rate_limit], fun h => ?_⟩
    simp [check_rate_limit] at h
  · refine ⟨fun _ => by simp [check_rate_limit], fun h => by simp at h, fun h => ?_⟩
    cases store with
    | down => simp [check_rate_limit] at h
    | up b => exact ⟨rfl, b, rfl⟩

/-- C8 witness: an enabled limiter facing an unreachable store admits and disables itself. -/
theorem rate_limiter_fails_open_witness :
    check_rate_limit ⟨true⟩ .down 5 300 0 = (⟨true, 5, 0⟩, ⟨false⟩, .down) :=
  (rate_limiter_fails_open ⟨true⟩ .down 5 300 0).1 rfl

/-- C9: for every non-empty subject and email, any roles and permissions, and
a positive ttl, verifying the freshly issued access token with expected kind
`access` before the ttl elapses succeeds, and the claims carry the subject
the token was issued for. -/
theorem access_token_roundtrip (uid em : String) (roles perms : List String)
    (now ttl t : Int) (hu : uid ≠ "") (he : em ≠ "")
    (httl : 0 < ttl) (h1 : now ≤ t) (h2 : t < now + ttl) :
    verify_token (create_access_token uid em roles perms now ttl) "access" t
      = some ⟨uid, em, roles, perms, "access", now + ttl, now, none⟩ := by
  have hexp : ¬ t > now + ttl := by omega
  simp [verify_token, jwt_decode, create_access_token, hu, he, hexp]

/-- C9 witness: the round trip at concrete values. -/
theorem access_token_roundtrip_witness :
    verify_token (create_access_token "u1" "a@b.c" ["user"] [] 100 900) "access" 100
      = some ⟨"u1", "a@b.c", ["user"], [], "access", 1000, 100, none⟩ :=
  access_token_roundtrip "u1" "a@b.c" ["user"] [] 100 900 100
    (by decide) (by decide) (by decide) (by decide) (by decide)

/-- C10: when the access token presented to `logout_user` fails verification,
logout returns `false` and the persisted state is untouched — no refresh
record is revoked and no session is ended. -/
theorem logout_invalid_token_noop (db : DB) (tok : Token) (now : Int)
    (h : verify_token tok "access" now = none) :
    logout_user db tok now = (false, db) := by
  simp [logout_user, h]

/-- C10 witness: an expired access token cannot revoke the live refresh record. -/
theorem logout_invalid_token_noop_witness :
    logout_user dbLogout (create_access_token "u1" "a@b.c" [] [] 0 10) 100
      = (false, dbLogout) :=
  logout_invalid_token_noop dbLogout (create_access_token "u1" "a@b.c" [] [] 0 10) 100
    (by decide)
